import Mathlib

/-!
Verification of the pixify backend service (src/utils.py, src/routes.py,
src/secrets.py) against its design specification.

The image-processing core is shallowly embedded: a PIL image becomes an
`Img` record (dimensions, a pixel function returning 8-bit RGB channel
triples, a color mode tag, and a palette for palette-mode images); the
PIL library primitives used by the code (`Image.resize` with
nearest-neighbor resampling, `Image.quantize`, `Image.convert`) become
executable Lean functions faithful to their documented behavior; network
effects (the OpenAI images API and HTTP GET) become explicit `World`
functions supplied as parameters; Python exceptions become
`Option`/`Except` error values carrying the exception message text.
-/

namespace Pixify

/-- An RGB color: one 8-bit value per channel (faithfulness to the 0..255
range is not needed by any property proved here, so channels are plain
naturals). -/
def Color : Type := Nat × Nat × Nat

instance : DecidableEq Color := by
  unfold Color
  infer_instance

/-- PIL color modes used by the code: true-color RGB, palette mode P
(produced by `Image.quantize`), RGBA with transparency, and grayscale L. -/
inductive Mode where
  | RGB
  | P
  | RGBA
  | L
deriving DecidableEq

/-- A PIL image, embedded shallowly: `pix x y` is the rendered RGB color of
the pixel at column `x`, row `y` (for palette-mode images the palette
lookup is already applied, and `palette` records the palette entries;
for modes with extra bands, e.g. alpha, only the rendered RGB channels
are kept, so `Image.convert "RGB"` is a mode-tag change that discards
the extra band). -/
structure Img where
  width : Nat
  height : Nat
  pix : Nat → Nat → Color
  mode : Mode
  palette : List Color

/-- `Image.convert`: change the color mode. The pixel function already
stores rendered RGB colors, so conversion re-tags the mode, drops any
non-RGB band data (e.g. alpha), and drops the palette when leaving
palette mode. -/
def Img.convert (img : Img) (m : Mode) : Img :=
  { img with mode := m, palette := if m = Mode.P then img.palette else [] }

/-- All pixels of an image in row-major order. -/
def pixelList (img : Img) : List Color :=
  (List.range img.height).flatMap fun y =>
    (List.range img.width).map fun x => img.pix x y

/-- The distinct colors occurring in an image. -/
def distinctColors (img : Img) : List Color :=
  (pixelList img).dedup

/-- `Image.resize(size, Image.Resampling.NEAREST)`: nearest-neighbor
resampling to the requested size. PIL raises `ValueError` when a target
dimension is not positive (modelled as `none`); otherwise the output
pixel at `(x, y)` samples the source at the floor of the back-projected
pixel-center coordinate `(x + 1/2) * srcW / dstW`, computed below in
integer arithmetic as `(2*x + 1) * srcW / (2*w)`. -/
def Img.resize (img : Img) (w h : Nat) : Option Img :=
  if w = 0 ∨ h = 0 then none
  else some
    { width := w
      height := h
      pix := fun x y =>
        img.pix ((2 * x + 1) * img.width / (2 * w)) ((2 * y + 1) * img.height / (2 * h))
      mode := img.mode
      palette := img.palette }

/-- `ImageProcessor.pixelate_image`: downscale to
`(max 1 (width // pixel_size), max 1 (height // pixel_size))` with
nearest-neighbor resampling, then upscale back to the original size with
nearest-neighbor again. `pixel_size` is a Python int, so `//` is floor
division (`Int.fdiv`); `pixel_size = 0` raises `ZeroDivisionError`
(modelled as `none`). -/
def pixelate_image (img : Img) (pixel_size : Int) : Option Img :=
  if pixel_size = 0 then none
  else
    let new_width : Int := max 1 ((img.width : Int).fdiv pixel_size)
    let new_height : Int := max 1 ((img.height : Int).fdiv pixel_size)
    (img.resize new_width.toNat new_height.toNat).bind fun smaller_image =>
      smaller_image.resize img.width img.height

/-- Squared Euclidean distance between two RGB colors, the metric used to
map a pixel to its nearest palette entry. -/
def colorDist (a b : Color) : Int :=
  ((a.1 : Int) - b.1) ^ 2 + ((a.2.1 : Int) - b.2.1) ^ 2 + ((a.2.2 : Int) - b.2.2) ^ 2

/-- Nearest palette entry to a color (first entry wins ties); on an empty
palette the color itself is returned (unreachable for nonempty images). -/
def nearestColor (pal : List Color) (c : Color) : Color :=
  match pal with
  | [] => c
  | p :: ps => ps.foldl (fun best q => if colorDist q c < colorDist best c then q else best) p

/-- `Image.quantize(colors)`: build an adaptive palette of at most `colors`
entries, map every pixel to its nearest palette entry, and return a
palette-mode (`P`) image. PIL raises `ValueError` for a color count
outside 1..256 (modelled as `none`). PIL delegates palette selection to
median cut; the selection itself is modelled as truncating the list of
distinct source colors, which keeps the contract every property here
relies on: the palette has at most `colors` entries and every output
pixel is a palette entry. -/
def Img.quantize (img : Img) (colors : Int) : Option Img :=
  if colors < 1 ∨ 256 < colors then none
  else
    let pal := (distinctColors img).take colors.toNat
    some
      { width := img.width
        height := img.height
        pix := fun x y => nearestColor pal (img.pix x y)
        mode := Mode.P
        palette := pal }

/-- `ImageProcessor.reduce_colors`: convert to RGB, quantize to at most
`num_colors` colors, and convert the palette-mode result back to RGB. -/
def reduce_colors (img : Img) (num_colors : Int) : Option Img :=
  ((img.convert Mode.RGB).quantize num_colors).map fun q => q.convert Mode.RGB

/-- A call to `client.images.generate(prompt=..., n=..., size=...)`:
the argument tuple the code passes to the OpenAI images API. -/
structure ApiCall where
  prompt : String
  n : Nat
  size : String
deriving DecidableEq

/-- The successful response of the images API: `response.data` is the list
of generated images, each carrying its retrieval URL. -/
structure ImagesResponse where
  data : List String
deriving DecidableEq

/-- The outcome of `requests.get(url, timeout=...)`: either a response with
a status code and a body (the body is modelled post-decoding: `some raw`
when the bytes decode to an image, `none` when `Image.open` would raise
`UnidentifiedImageError`), or a transport-level failure such as a timeout
(`requests.exceptions.RequestException`). -/
inductive HttpResult where
  | resp (status : Nat) (body : Option Img)
  | netError (msg : String)

/-- The external world the pipeline talks to: the OpenAI images API and
HTTP GET (taking the url and the timeout in seconds). Both are supplied
as parameters so every network behavior can be quantified over. -/
structure World where
  api : ApiCall → Except String ImagesResponse
  http : String → Nat → HttpResult

/-- `ImageProcessor.generate_image`: call the images API with the prompt,
`n=1` and the requested size, and return `response.data[0].url`. Any
exception (an upstream API error, or `IndexError` when `data` is empty)
is re-raised as `Exception("Failed to generate image: ...")`. -/
def generate_image (w : World) (prompt : String) (size : String) : Except String String :=
  match w.api { prompt := prompt, n := 1, size := size } with
  | Except.error e => Except.error ("Failed to generate image: " ++ e)
  | Except.ok r =>
    match r.data with
    | [] => Except.error ("Failed to generate image: list index out of range")
    | u :: _ => Except.ok u

/-- `ImageProcessor.fetch_image`: GET the url with `timeout=60`;
`raise_for_status()` raises `HTTPError` for status codes 400..599;
`Image.open` raises `UnidentifiedImageError` on undecodable bytes; both
(and transport failures) are re-raised as
`Exception("Failed to fetch image: ...")`. On success the decoded image
is normalized with `convert("RGB")`. -/
def fetch_image (w : World) (image_url : String) : Except String Img :=
  match w.http image_url 60 with
  | HttpResult.netError e => Except.error ("Failed to fetch image: " ++ e)
  | HttpResult.resp status body =>
    if 400 ≤ status ∧ status < 600 then
      Except.error ("Failed to fetch image: HTTP status " ++ toString status)
    else
      match body with
      | none => Except.error ("Failed to fetch image: cannot identify image file")
      | some raw => Except.ok (raw.convert Mode.RGB)

/-- PNG serialization of the final image (`final_image.save(img_io, PNG)`
followed by `getvalue()`), modelled as a lossless byte serialization of
dimensions and row-major pixel channels. -/
def pngEncode (img : Img) : List Nat :=
  img.width :: img.height :: (pixelList img).flatMap fun c => [c.1, c.2.1, c.2.2]

/-- `ImageProcessor.process_image`: generate, fetch, pixelate, reduce
colors, and PNG-encode, in that order; every stage failure propagates as
the raised exception's message (for the pure stages the message is the
Python exception text: `ZeroDivisionError`/`ValueError` from pixelation
on a degenerate input, `ValueError` from quantization on an out-of-range
color count). -/
def process_image (w : World) (prompt : String) (pixel_size : Int)
    (num_colors : Int) (size : String) : Except String (List Nat) :=
  match generate_image w prompt size with
  | Except.error e => Except.error e
  | Except.ok image_url =>
    match fetch_image w image_url with
    | Except.error e => Except.error e
    | Except.ok image =>
      match pixelate_image image pixel_size with
      | none => Except.error "integer division or modulo by zero"
      | some pixelated =>
        match reduce_colors pixelated num_colors with
        | none => Except.error "bad number of colors"
        | some final_image => Except.ok (pngEncode final_image)

/-- Python `str.strip()`: drop leading and trailing whitespace
(implemented over the character list so that it evaluates by kernel
reduction). -/
def pyStrip (s : String) : String :=
  String.mk (((s.data.dropWhile Char.isWhitespace).reverse.dropWhile Char.isWhitespace).reverse)

/-- Parse a nonempty all-digit character list as a natural number. -/
def digitsToNat (cs : List Char) : Option Nat :=
  if cs = [] then none
  else if cs.all (fun c => c.isDigit) then
    some (cs.foldl (fun n c => n * 10 + (c.toNat - 48)) 0)
  else none

/-- A JSON scalar as it arrives in the request body fields `pixel_size`
and `num_colors`: either a JSON number (a Python int) or a JSON string. -/
inductive JVal where
  | jint (n : Int)
  | jstr (s : String)
deriving DecidableEq

/-- Python `int(v)` on a JSON scalar: the identity on ints; on strings,
parse the whitespace-stripped text as an optionally signed decimal
integer, raising `ValueError` (modelled as `none`) when it is not one. -/
def pyInt : JVal → Option Int
  | JVal.jint n => some n
  | JVal.jstr s =>
    match (pyStrip s).data with
    | '-' :: rest => (digitsToNat rest).map fun n => -(n : Int)
    | '+' :: rest => (digitsToNat rest).map fun n => (n : Int)
    | cs => (digitsToNat cs).map fun n => (n : Int)

/-- The message of the `ValueError` raised by `int(v)` on a bad value. -/
def intErrMsg : JVal → String
  | JVal.jint n => "invalid literal for int(): " ++ toString n
  | JVal.jstr s => "invalid literal for int() with base 10: " ++ s

/-- The parsed JSON body of a POST to `/api/generate_pixelated_image`:
each field is `none` when the key is absent (`data.get` then supplies
the documented default). -/
structure ReqData where
  prompt : Option String
  pixel_size : Option JVal
  num_colors : Option JVal
  size : Option String
deriving DecidableEq

/-- An HTTP response from the route: status code, the `success` flag of
the JSON body, and the body's message (the `error` text, or the
data-URI payload on success). -/
structure Resp where
  status : Nat
  success : Bool
  msg : String
deriving DecidableEq

/-- The size whitelist of the route's validation. -/
def validSizes : List String := ["256x256", "512x512", "1024x1024"]

/-- `base64.b64encode(image_data).decode("utf-8")`, modelled as an
injective textual encoding of the byte list. -/
def b64encode (bytes : List Nat) : String :=
  String.intercalate "," (bytes.map toString)

/-- The secret sources visible to `src/secrets.py`: the Docker secret
files under `/run/secrets/` (by secret name; `none` when the file is
missing or unreadable) and the process environment (by variable name). -/
structure SecretEnv where
  secretFile : String → Option String
  envVar : String → Option String

/-- The `ValueError` message raised when a secret is found nowhere. -/
def secretNotFoundMsg (secret_name envName : String) : String :=
  "Secret " ++ secret_name ++ " not found. Looked for Docker secret at /run/secrets/" ++
    secret_name ++ " and environment variable " ++ envName

/-- `get_secret`: read the Docker secret file first and return its
stripped contents when nonempty; otherwise fall back to the environment
variable (defaulting to the uppercased secret name) when set and
nonempty; otherwise raise `ValueError`. -/
def get_secret (sec : SecretEnv) (secret_name : String)
    (env_var_name : Option String) : Except String String :=
  let envName := env_var_name.getD secret_name.toUpper
  let fromEnv : Except String String :=
    match sec.envVar envName with
    | some v =>
      if v ≠ "" then Except.ok v else Except.error (secretNotFoundMsg secret_name envName)
    | none => Except.error (secretNotFoundMsg secret_name envName)
  match sec.secretFile secret_name with
  | some contents => if contents.trim ≠ "" then Except.ok contents.trim else fromEnv
  | none => fromEnv

/-- `get_openai_api_key`: `get_secret("openai_api_key", "OPENAI_API_KEY")`. -/
def get_openai_api_key (sec : SecretEnv) : Except String String :=
  get_secret sec "openai_api_key" (some "OPENAI_API_KEY")

/-- The state an `ImageProcessor` holds after construction. -/
structure ImageProcessor where
  api_key : String
deriving DecidableEq

/-- `ImageProcessor.__init__`: take the explicit api_key when truthy
(a nonempty string), otherwise resolve it via `get_openai_api_key`
(whose `ValueError` propagates); afterwards raise
`ValueError("OpenAI API key is required")` when the key is falsy. -/
def ImageProcessor.init (api_key : Option String) (sec : SecretEnv) :
    Except String ImageProcessor :=
  let resolved : Except String String :=
    match api_key with
    | some k => if k ≠ "" then Except.ok k else get_openai_api_key sec
    | none => get_openai_api_key sec
  match resolved with
  | Except.error e => Except.error e
  | Except.ok k =>
    if k = "" then Except.error "OpenAI API key is required" else Except.ok { api_key := k }

/-- `get_image_processor`: the factory the route calls, `ImageProcessor()`. -/
def get_image_processor (sec : SecretEnv) : Except String ImageProcessor :=
  ImageProcessor.init none sec

/-- The POST branch of the `generate_pixelated_image` route handler
(`OPTIONS` preflight, bearer-token authentication and JSON body parsing
are outside the modelled core): extract `prompt` (default `""`,
stripped), convert `pixel_size` (default 32) and `num_colors`
(default 256) with `int()` — whose `ValueError` is caught only by the
outer handler, yielding 500 — read `size` (default `"1024x1024"`), run
the four validation checks in order (each violation answered with 400
and a field-specific message), then construct the processor and run the
pipeline inside the inner `try`, answering 500 with
`"Error generating image: ..."` on any exception, or 200 with the
base64 data URI on success. -/
def generate_pixelated_image (w : World) (sec : SecretEnv) (data : ReqData) : Resp :=
  match pyInt (data.pixel_size.getD (JVal.jint 32)) with
  | none =>
    { status := 500, success := false, msg := intErrMsg (data.pixel_size.getD (JVal.jint 32)) }
  | some pixel_size =>
    match pyInt (data.num_colors.getD (JVal.jint 256)) with
    | none =>
      { status := 500, success := false, msg := intErrMsg (data.num_colors.getD (JVal.jint 256)) }
    | some num_colors =>
      let prompt := pyStrip (data.prompt.getD "")
      let size := data.size.getD "1024x1024"
      if prompt = "" then
        { status := 400, success := false, msg := "Image prompt is required" }
      else if pixel_size < 1 ∨ 100 < pixel_size then
        { status := 400, success := false, msg := "Pixel size must be between 1 and 100" }
      else if num_colors < 2 ∨ 256 < num_colors then
        { status := 400, success := false, msg := "Number of colors must be between 2 and 256" }
      else if size ∉ validSizes then
        { status := 400, success := false, msg := "Size must be 256x256, 512x512, or 1024x1024" }
      else
        match get_image_processor sec with
        | Except.error e =>
          { status := 500, success := false, msg := "Error generating image: " ++ e }
        | Except.ok _ =>
          match process_image w prompt pixel_size num_colors size with
          | Except.error e =>
            { status := 500, success := false, msg := "Error generating image: " ++ e }
          | Except.ok image_data =>
            { status := 200, success := true,
              msg := "data:image/png;base64," ++ b64encode image_data }

/-- A small concrete test image: 2×2, RGB, each pixel colored by its
coordinates. -/
def testImg : Img :=
  { width := 2, height := 2, pix := fun x y => (x, y, 0), mode := Mode.RGB, palette := [] }

/-- A concrete decoded image as it would come off the wire: 2×2, RGBA. -/
def rawImg : Img :=
  { width := 2, height := 2, pix := fun x y => (x + 1, y + 2, 3), mode := Mode.RGBA, palette := [] }

/-- A secret environment with no Docker secret and no environment
variable set. -/
def emptySecrets : SecretEnv :=
  { secretFile := fun _ => none, envVar := fun _ => none }

/-- A secret environment that supplies the key via `OPENAI_API_KEY`. -/
def okSecrets : SecretEnv :=
  { secretFile := fun _ => none,
    envVar := fun name => if name = "OPENAI_API_KEY" then some "test-key" else none }

/-- A world in which generation succeeds and the image host serves a
decodable image with status 200. -/
def okWorld : World :=
  { api := fun _ => Except.ok { data := ["http-img-url"] },
    http := fun _ _ => HttpResult.resp 200 (some rawImg) }

/-- A world in which generation succeeds but the image host answers 404. -/
def world404 : World :=
  { api := fun _ => Except.ok { data := ["http-img-url"] },
    http := fun _ _ => HttpResult.resp 404 none }

/-- A world in which the image host answers status 304 — not a 2xx
status — with a body that decodes to an image. -/
def world304 : World :=
  { api := fun _ => Except.error "unused",
    http := fun _ _ => HttpResult.resp 304 (some rawImg) }

/-- A world in which the generation API itself fails. -/
def failApiWorld : World :=
  { api := fun _ => Except.error "quota exceeded",
    http := fun _ _ => HttpResult.netError "connection refused" }

/-- A request body that passes every validation check. -/
def okData : ReqData :=
  { prompt := some "a red circle", pixel_size := some (JVal.jint 32),
    num_colors := some (JVal.jint 16), size := some "256x256" }

/-- The valid request body with pixel_size overridden to 0. -/
def psZeroData : ReqData := { okData with pixel_size := some (JVal.jint 0) }

end Pixify

namespace Pixify

/-- Claim C1: for every RGB image with positive dimensions and every
pixel_size ≥ 1, `pixelate_image` downsamples to
`(max 1 (width // pixel_size), max 1 (height // pixel_size))` with
nearest-neighbor resampling, upsamples back with nearest-neighbor, and
the returned image has exactly the input dimensions. -/
theorem pixelate_image_preserves_dimensions (img : Img) (pixel_size : Int)
    (hw : 1 ≤ img.width) (hh : 1 ≤ img.height) (hp : 1 ≤ pixel_size) :
    ∃ mid out : Img,
      img.resize (max 1 ((img.width : Int).fdiv pixel_size)).toNat
          (max 1 ((img.height : Int).fdiv pixel_size)).toNat = some mid ∧
      mid.width = (max 1 ((img.width : Int).fdiv pixel_size)).toNat ∧
      mid.height = (max 1 ((img.height : Int).fdiv pixel_size)).toNat ∧
      mid.resize img.width img.height = some out ∧
      pixelate_image img pixel_size = some out ∧
      out.width = img.width ∧ out.height = img.height := by
  have hps0 : pixel_size ≠ 0 := by omega
  have hnw : (max 1 ((img.width : Int).fdiv pixel_size)).toNat ≠ 0 := by
    omega
  have hnh : (max 1 ((img.height : Int).fdiv pixel_size)).toNat ≠ 0 := by
    omega
  have hw0 : img.width ≠ 0 := by omega
  have hh0 : img.height ≠ 0 := by omega
  simp only [pixelate_image, Img.resize, hps0, if_false, hnw, hnh, hw0, hh0,
    or_self, if_false, Option.bind_eq_bind, Option.some_bind]
  refine ⟨_, _, rfl, rfl, rfl, rfl, ?_, rfl, rfl⟩
  simp

/-- Claim C1 witness: a concrete 2×2 image pixelated with pixel_size 3. -/
theorem pixelate_image_preserves_dimensions_witness :
    ∃ mid out : Img,
      testImg.resize (max 1 ((testImg.width : Int).fdiv 3)).toNat
          (max 1 ((testImg.height : Int).fdiv 3)).toNat = some mid ∧
      mid.width = (max 1 ((testImg.width : Int).fdiv 3)).toNat ∧
      mid.height = (max 1 ((testImg.height : Int).fdiv 3)).toNat ∧
      mid.resize testImg.width testImg.height = some out ∧
      pixelate_image testImg 3 = some out ∧
      out.width = testImg.width ∧ out.height = testImg.height :=
  pixelate_image_preserves_dimensions testImg 3 (by decide) (by decide) (by decide)

/-- Claim C2: when pixel_size exceeds the smaller dimension, pixelation
still succeeds (the `max 1` floor collapses the dimension to one block)
rather than failing. -/
theorem pixelate_image_large_pixel_size_succeeds (img : Img) (pixel_size : Int)
    (hw : 1 ≤ img.width) (hh : 1 ≤ img.height)
    (hp : ((min img.width img.height : Nat) : Int) < pixel_size) :
    (pixelate_image img pixel_size).isSome = true := by
  have hmin : 1 ≤ min img.width img.height := le_min hw hh
  have hmin2 : (1 : Int) ≤ ((min img.width img.height : Nat) : Int) := by exact_mod_cast hmin
  have hps0 : pixel_size ≠ 0 := by omega
  have hnw : (max 1 ((img.width : Int).fdiv pixel_size)).toNat ≠ 0 := by omega
  have hnh : (max 1 ((img.height : Int).fdiv pixel_size)).toNat ≠ 0 := by omega
  have hw0 : img.width ≠ 0 := by omega
  have hh0 : img.height ≠ 0 := by omega
  simp [pixelate_image, Img.resize, hps0, hnw, hnh, hw0, hh0]

/-- Claim C2 witness: a 2×2 image with pixel_size 5 > min(2,2). -/
theorem pixelate_image_large_pixel_size_succeeds_witness :
    (pixelate_image testImg 5).isSome = true :=
  pixelate_image_large_pixel_size_succeeds testImg 5 (by decide) (by decide) (by decide)

/-- The fold used by `nearestColor` only ever returns the accumulator or a
list element. -/
theorem foldl_pick_mem (c : Color) (ps : List Color) (best : Color) :
    ps.foldl (fun b q => if colorDist q c < colorDist b c then q else b) best ∈ best :: ps := by
  induction ps generalizing best with
  | nil => simp
  | cons q qs ih =>
    simp only [List.foldl_cons]
    by_cases hc : colorDist q c < colorDist best c
    · rw [if_pos hc]
      rcases List.mem_cons.mp (ih q) with h | h
      · rw [h]; exact List.mem_cons_of_mem _ (List.mem_cons_self _ _)
      · exact List.mem_cons_of_mem _ (List.mem_cons_of_mem _ h)
    · rw [if_neg hc]
      rcases List.mem_cons.mp (ih best) with h | h
      · rw [h]; exact List.mem_cons_self _ _
      · exact List.mem_cons_of_mem _ (List.mem_cons_of_mem _ h)

/-- A nonempty palette contains the nearest color to any query color. -/
theorem nearestColor_mem (pal : List Color) (c : Color) (hne : pal ≠ []) :
    nearestColor pal c ∈ pal := by
  match pal with
  | [] => exact absurd rfl hne
  | p :: ps => exact foldl_pick_mem c ps p

/-- Applying a function pixelwise maps the pixel list. -/
theorem pixelList_pixmap (img : Img) (f : Color → Color) (m : Mode) (pal : List Color) :
    pixelList
      { width := img.width, height := img.height,
        pix := fun x y => f (img.pix x y), mode := m, palette := pal } =
      (pixelList img).map f := by
  simp [pixelList, List.map_flatMap, List.map_map, Function.comp_def]

/-- Claim C3: for 2 ≤ num_colors ≤ 256, `reduce_colors` succeeds and
returns an RGB-mode (not palette-mode) image with at most num_colors
distinct colors, at unchanged dimensions. -/
theorem reduce_colors_bounds_palette (img : Img) (num_colors : Int)
    (h2 : 2 ≤ num_colors) (h256 : num_colors ≤ 256) :
    ∃ out : Img, reduce_colors img num_colors = some out ∧
      out.mode = Mode.RGB ∧
      (distinctColors out).length ≤ num_colors.toNat ∧
      out.width = img.width ∧ out.height = img.height := by
  have hguard : ¬(num_colors < 1 ∨ 256 < num_colors) := by omega
  set base := img.convert Mode.RGB with hbase
  set pal := (distinctColors base).take num_colors.toNat with hpal
  set qimg : Img :=
    { width := base.width, height := base.height,
      pix := fun x y => nearestColor pal (base.pix x y),
      mode := Mode.P, palette := pal } with hqimg
  set out := qimg.convert Mode.RGB with hout
  have hq2 : base.quantize num_colors = some qimg := by
    rw [Img.quantize, if_neg hguard]
  have hred : reduce_colors img num_colors = some out := by
    rw [reduce_colors, ← hbase, hq2]
    rfl
  refine ⟨out, hred, rfl, ?_, rfl, rfl⟩
  have hpix : pixelList out = (pixelList base).map (nearestColor pal) := by
    have hform : out =
        { width := base.width, height := base.height,
          pix := fun x y => nearestColor pal (base.pix x y),
          mode := Mode.RGB, palette := [] } := rfl
    rw [hform]
    exact pixelList_pixmap base (nearestColor pal) Mode.RGB []
  by_cases hbe : pixelList base = []
  · have hoe : pixelList out = [] := by rw [hpix, hbe]; rfl
    simp [distinctColors, hoe]
  · have hdne : distinctColors base ≠ [] := by
      simpa [distinctColors, List.dedup_eq_nil] using hbe
    have hpalne : pal ≠ [] := by
      intro h
      have hlen0 : pal.length = 0 := by rw [h]; rfl
      rw [hpal, List.length_take] at hlen0
      have hdpos : 0 < (distinctColors base).length := List.length_pos.mpr hdne
      omega
    have hsub : distinctColors out ⊆ pal := by
      intro x hx
      have hx2 : x ∈ pixelList out := List.mem_dedup.mp hx
      rw [hpix] at hx2
      rcases List.mem_map.mp hx2 with ⟨c, _, rfl⟩
      exact nearestColor_mem pal c hpalne
    have hnodup : (distinctColors out).Nodup := List.nodup_dedup _
    calc (distinctColors out).length ≤ pal.length := (hnodup.subperm hsub).length_le
      _ ≤ num_colors.toNat := List.length_take_le _ _

/-- Claim C3 witness: a concrete 2×2 image reduced to at most 2 colors. -/
theorem reduce_colors_bounds_palette_witness :
    ∃ out : Img, reduce_colors testImg 2 = some out ∧
      out.mode = Mode.RGB ∧
      (distinctColors out).length ≤ (2 : Int).toNat ∧
      out.width = testImg.width ∧ out.height = testImg.height :=
  reduce_colors_bounds_palette testImg 2 (by decide) (by decide)

/-- On a request that passes every validation check, the handler answers
either 500 (construction or pipeline failure) or 200 (success). -/
theorem handler_valid_status (w : World) (sec : SecretEnv) (data : ReqData) (ps nc : Int)
    (hps : pyInt (data.pixel_size.getD (JVal.jint 32)) = some ps)
    (hnc : pyInt (data.num_colors.getD (JVal.jint 256)) = some nc)
    (h1 : pyStrip (data.prompt.getD "") ≠ "") (h2 : ¬(ps < 1 ∨ 100 < ps))
    (h3 : ¬(nc < 2 ∨ 256 < nc)) (h4 : data.size.getD "1024x1024" ∈ validSizes) :
    (generate_pixelated_image w sec data).status = 500 ∨
      (generate_pixelated_image w sec data).status = 200 := by
  unfold generate_pixelated_image
  rw [hps, hnc]
  simp [h1, h2, h3, h4]
  cases hg : get_image_processor sec with
  | error e => left; simp [hg]
  | ok p =>
    cases hp : process_image w (pyStrip (data.prompt.getD "")) ps nc
        (data.size.getD "1024x1024") with
    | error e => left; simp [hg, hp]
    | ok b => right; simp [hg, hp]

/-- Claim C4: whenever both `int()` conversions succeed, the handler
answers 400 exactly when the trimmed prompt is empty, pixel_size is
outside [1,100], num_colors is outside [2,256], or size is not in the
whitelist; and each 400 carries the message naming the first offending
field in the checking order. -/
theorem validation_rejects_iff_out_of_range (w : World) (sec : SecretEnv) (data : ReqData)
    (ps nc : Int)
    (hps : pyInt (data.pixel_size.getD (JVal.jint 32)) = some ps)
    (hnc : pyInt (data.num_colors.getD (JVal.jint 256)) = some nc) :
    ((generate_pixelated_image w sec data).status = 400 ↔
      (pyStrip (data.prompt.getD "") = "" ∨ ps < 1 ∨ 100 < ps ∨ nc < 2 ∨ 256 < nc ∨
        data.size.getD "1024x1024" ∉ validSizes)) ∧
    (pyStrip (data.prompt.getD "") = "" →
      generate_pixelated_image w sec data =
        { status := 400, success := false, msg := "Image prompt is required" }) ∧
    (pyStrip (data.prompt.getD "") ≠ "" → (ps < 1 ∨ 100 < ps) →
      generate_pixelated_image w sec data =
        { status := 400, success := false, msg := "Pixel size must be between 1 and 100" }) ∧
    (pyStrip (data.prompt.getD "") ≠ "" → ¬(ps < 1 ∨ 100 < ps) → (nc < 2 ∨ 256 < nc) →
      generate_pixelated_image w sec data =
        { status := 400, success := false, msg := "Number of colors must be between 2 and 256" }) ∧
    (pyStrip (data.prompt.getD "") ≠ "" → ¬(ps < 1 ∨ 100 < ps) → ¬(nc < 2 ∨ 256 < nc) →
      data.size.getD "1024x1024" ∉ validSizes →
      generate_pixelated_image w sec data =
        { status := 400, success := false,
          msg := "Size must be 256x256, 512x512, or 1024x1024" }) := by
  refine ⟨?_, ?_, ?_, ?_, ?_⟩
  · constructor
    · intro h400
      by_contra hno
      push_neg at hno
      obtain ⟨hp1, hp2, hp3, hp4, hp5, hp6⟩ := hno
      have h2 : ¬(ps < 1 ∨ 100 < ps) := by omega
      have h3 : ¬(nc < 2 ∨ 256 < nc) := by omega
      rcases handler_valid_status w sec data ps nc hps hnc hp1 h2 h3 hp6 with h | h <;> omega
    · intro hdisj
      unfold generate_pixelated_image
      rw [hps, hnc]
      by_cases h1 : pyStrip (data.prompt.getD "") = ""
      · simp [h1]
      · by_cases h2 : ps < 1 ∨ 100 < ps
        · simp [h1, h2]
        · by_cases h3 : nc < 2 ∨ 256 < nc
          · simp [h1, h2, h3]
          · have h4 : data.size.getD "1024x1024" ∉ validSizes := by tauto
            simp [h1, h2, h3, h4]
  · intro h1
    unfold generate_pixelated_image
    rw [hps, hnc]
    simp [h1]
  · intro h1 h2
    unfold generate_pixelated_image
    rw [hps, hnc]
    simp [h1, h2]
  · intro h1 h2 h3
    unfold generate_pixelated_image
    rw [hps, hnc]
    simp [h1, h2, h3]
  · intro h1 h2 h3 h4
    unfold generate_pixelated_image
    rw [hps, hnc]
    simp [h1, h2, h3, h4]

/-- Claim C4 witness: a payload with pixel_size 0 is rejected with 400 and
the pixel-size message, while the fully valid payload is not answered
with 400. -/
theorem validation_rejects_iff_out_of_range_witness :
    ((generate_pixelated_image okWorld okSecrets psZeroData).status = 400 ↔
      (pyStrip (psZeroData.prompt.getD "") = "" ∨
        (0 : Int) < 1 ∨ 100 < (0 : Int) ∨ (16 : Int) < 2 ∨ 256 < (16 : Int) ∨
        psZeroData.size.getD "1024x1024" ∉ validSizes)) ∧
    (pyStrip (psZeroData.prompt.getD "") = "" →
      generate_pixelated_image okWorld okSecrets psZeroData =
        { status := 400, success := false, msg := "Image prompt is required" }) ∧
    (pyStrip (psZeroData.prompt.getD "") ≠ "" → ((0 : Int) < 1 ∨ 100 < (0 : Int)) →
      generate_pixelated_image okWorld okSecrets psZeroData =
        { status := 400, success := false, msg := "Pixel size must be between 1 and 100" }) ∧
    (pyStrip (psZeroData.prompt.getD "") ≠ "" → ¬((0 : Int) < 1 ∨ 100 < (0 : Int)) →
      ((16 : Int) < 2 ∨ 256 < (16 : Int)) →
      generate_pixelated_image okWorld okSecrets psZeroData =
        { status := 400, success := false,
          msg := "Number of colors must be between 2 and 256" }) ∧
    (pyStrip (psZeroData.prompt.getD "") ≠ "" → ¬((0 : Int) < 1 ∨ 100 < (0 : Int)) →
      ¬((16 : Int) < 2 ∨ 256 < (16 : Int)) →
      psZeroData.size.getD "1024x1024" ∉ validSizes →
      generate_pixelated_image okWorld okSecrets psZeroData =
        { status := 400, success := false,
          msg := "Size must be 256x256, 512x512, or 1024x1024" }) :=
  validation_rejects_iff_out_of_range okWorld okSecrets psZeroData 0 16
    (by decide) (by decide)

/-- Claim C5: for valid parameters, `process_image` runs generation, then
fetch, then pixelation, then color reduction, then PNG encoding, in
that order; a generation or fetch failure propagates unchanged as the
overall result, and on success the result is exactly the PNG encoding
of the color-reduced pixelated fetched image. -/
theorem process_image_pipeline_order (w : World) (prompt : String) (ps nc : Int)
    (size : String) (hps : 1 ≤ ps) (hnc1 : 2 ≤ nc) (hnc2 : nc ≤ 256) :
    (∀ e, generate_image w prompt size = Except.error e →
      process_image w prompt ps nc size = Except.error e) ∧
    (∀ url e, generate_image w prompt size = Except.ok url →
      fetch_image w url = Except.error e →
      process_image w prompt ps nc size = Except.error e) ∧
    (∀ url img, generate_image w prompt size = Except.ok url →
      fetch_image w url = Except.ok img →
      1 ≤ img.width → 1 ≤ img.height →
      ∃ px final : Img, pixelate_image img ps = some px ∧
        reduce_colors px nc = some final ∧
        process_image w prompt ps nc size = Except.ok (pngEncode final)) := by
  refine ⟨?_, ?_, ?_⟩
  · intro e he
    simp [process_image, he]
  · intro url e hg hf
    simp [process_image, hg, hf]
  · intro url img hg hf hw hh
    have hps0 : ps ≠ 0 := by omega
    have hnw : (max 1 ((img.width : Int).fdiv ps)).toNat ≠ 0 := by omega
    have hnh : (max 1 ((img.height : Int).fdiv ps)).toNat ≠ 0 := by omega
    have hw0 : img.width ≠ 0 := by omega
    have hh0 : img.height ≠ 0 := by omega
    have hpx : ∃ px, pixelate_image img ps = some px := by
      simp [pixelate_image, Img.resize, hps0, hnw, hnh, hw0, hh0]
    obtain ⟨px, hpx⟩ := hpx
    have hguard : ¬(nc < 1 ∨ 256 < nc) := by omega
    have hfin : ∃ final, reduce_colors px nc = some final := by
      simp [reduce_colors, Img.quantize, hguard]
    obtain ⟨final, hfin⟩ := hfin
    exact ⟨px, final, hpx, hfin, by simp [process_image, hg, hf, hpx, hfin]⟩

/-- Claim C5 witness: the pipeline run end to end in a concrete world
where generation and fetch succeed. -/
theorem process_image_pipeline_order_witness :
    ∃ px final : Img, pixelate_image (rawImg.convert Mode.RGB) 32 = some px ∧
      reduce_colors px 16 = some final ∧
      process_image okWorld "a red circle" 32 16 "256x256" =
        Except.ok (pngEncode final) :=
  (process_image_pipeline_order okWorld "a red circle" 32 16 "256x256"
      (by decide) (by decide) (by decide)).2.2
    "http-img-url" (rawImg.convert Mode.RGB) rfl rfl (by decide) (by decide)

/-- Claim C6: `generate_image` makes a single API call with `n = 1` at the
requested size and its result depends only on that call; a nonempty
response yields `data[0]`'s url, and an upstream failure is wrapped into
`Failed to generate image: ...`. -/
theorem generate_image_single_call_contract (w : World) (p size u e : String)
    (rest : List String) :
    (w.api { prompt := p, n := 1, size := size } = Except.ok { data := u :: rest } →
      generate_image w p size = Except.ok u) ∧
    (w.api { prompt := p, n := 1, size := size } = Except.error e →
      generate_image w p size = Except.error ("Failed to generate image: " ++ e)) ∧
    (∀ w2 : World, w.api { prompt := p, n := 1, size := size } =
        w2.api { prompt := p, n := 1, size := size } →
      generate_image w p size = generate_image w2 p size) := by
  refine ⟨?_, ?_, ?_⟩
  · intro h
    simp [generate_image, h]
  · intro h
    simp [generate_image, h]
  · intro w2 h
    simp [generate_image, h]

/-- Claim C6 witness: a successful call returns the single generated url
and a failing call returns the wrapped upstream error. -/
theorem generate_image_single_call_contract_witness :
    generate_image okWorld "a red circle" "256x256" = Except.ok "http-img-url" ∧
    generate_image failApiWorld "a red circle" "256x256" =
      Except.error ("Failed to generate image: " ++ "quota exceeded") :=
  ⟨(generate_image_single_call_contract okWorld "a red circle" "256x256"
      "http-img-url" "" []).1 rfl,
   (generate_image_single_call_contract failApiWorld "a red circle" "256x256"
      "" "quota exceeded" []).2.1 rfl⟩

/-- Claim C7 counterexample: `raise_for_status()` only raises for status
codes 400..599, so a response with status 304 — not a 2xx status — whose
body decodes to an image makes `fetch_image` succeed, where the claim
says every non-2xx status fails. -/
theorem fetch_image_non2xx_counterexample :
    world304.http "http-img-url" 60 = HttpResult.resp 304 (some rawImg) ∧
    ¬(200 ≤ 304 ∧ 304 ≤ 299) ∧
    fetch_image world304 "http-img-url" = Except.ok (rawImg.convert Mode.RGB) :=
  ⟨rfl, by decide, rfl⟩

/-- Claim C7 as amended: `fetch_image` performs one GET with timeout 60
and depends only on it; it fails on transport errors, on status codes
400..599 and on undecodable bodies; any other response with a decodable
body succeeds and is normalized to RGB mode. -/
theorem fetch_image_amended_contract (w : World) (url : String) :
    (∀ e, w.http url 60 = HttpResult.netError e →
      fetch_image w url = Except.error ("Failed to fetch image: " ++ e)) ∧
    (∀ s b, w.http url 60 = HttpResult.resp s b → 400 ≤ s → s < 600 →
      fetch_image w url =
        Except.error ("Failed to fetch image: HTTP status " ++ toString s)) ∧
    (∀ s, w.http url 60 = HttpResult.resp s none → ¬(400 ≤ s ∧ s < 600) →
      fetch_image w url =
        Except.error ("Failed to fetch image: cannot identify image file")) ∧
    (∀ s raw, w.http url 60 = HttpResult.resp s (some raw) → ¬(400 ≤ s ∧ s < 600) →
      fetch_image w url = Except.ok (raw.convert Mode.RGB) ∧
        (raw.convert Mode.RGB).mode = Mode.RGB) ∧
    (∀ w2 : World, w.http url 60 = w2.http url 60 →
      fetch_image w url = fetch_image w2 url) := by
  refine ⟨?_, ?_, ?_, ?_, ?_⟩
  · intro e h
    simp [fetch_image, h]
  · intro s b h h4 h6
    simp [fetch_image, h, h4, h6]
  · intro s h hns
    simp [fetch_image, h, hns]
  · intro s raw h hns
    exact ⟨by simp [fetch_image, h, hns], rfl⟩
  · intro w2 h
    simp [fetch_image, h]

/-- Claim C7 amended witness: a transport failure, a 404 and a successful
200 fetch, each at a concrete world. -/
theorem fetch_image_amended_contract_witness :
    fetch_image failApiWorld "u" =
      Except.error ("Failed to fetch image: " ++ "connection refused") ∧
    fetch_image world404 "u" =
      Except.error ("Failed to fetch image: HTTP status " ++ toString 404) ∧
    (fetch_image okWorld "u" = Except.ok (rawImg.convert Mode.RGB) ∧
      (rawImg.convert Mode.RGB).mode = Mode.RGB) :=
  ⟨(fetch_image_amended_contract failApiWorld "u").1 "connection refused" rfl,
   (fetch_image_amended_contract world404 "u").2.1 404 none rfl (by decide) (by decide),
   (fetch_image_amended_contract okWorld "u").2.2.2.1 200 rawImg rfl (by decide)⟩

/-- Claim C8: on a request that passes validation, a failing pipeline run
is answered with HTTP 500 whose message wraps the underlying cause's
text. -/
theorem pipeline_failure_maps_to_500 (w : World) (sec : SecretEnv) (data : ReqData)
    (ps nc : Int) (proc : ImageProcessor) (e : String)
    (hps : pyInt (data.pixel_size.getD (JVal.jint 32)) = some ps)
    (hnc : pyInt (data.num_colors.getD (JVal.jint 256)) = some nc)
    (h1 : pyStrip (data.prompt.getD "") ≠ "") (h2 : ¬(ps < 1 ∨ 100 < ps))
    (h3 : ¬(nc < 2 ∨ 256 < nc)) (h4 : data.size.getD "1024x1024" ∈ validSizes)
    (hproc : get_image_processor sec = Except.ok proc)
    (hfail : process_image w (pyStrip (data.prompt.getD "")) ps nc
      (data.size.getD "1024x1024") = Except.error e) :
    generate_pixelated_image w sec data =
      { status := 500, success := false, msg := "Error generating image: " ++ e } := by
  unfold generate_pixelated_image
  rw [hps, hnc]
  simp [h1, h2, h3, h4, hproc, hfail]

/-- Claim C8 witness: an HTTP 404 from the image host during fetch
surfaces as a 500 response wrapping the fetch error text. -/
theorem pipeline_failure_maps_to_500_witness :
    generate_pixelated_image world404 okSecrets okData =
      { status := 500, success := false,
        msg := "Error generating image: " ++
          ("Failed to fetch image: HTTP status " ++ toString 404) } :=
  pipeline_failure_maps_to_500 world404 okSecrets okData 32 16
    { api_key := "test-key" } ("Failed to fetch image: HTTP status " ++ toString 404)
    (by decide) (by decide) (by decide) (by decide) (by decide) (by decide) rfl rfl

/-- Claim C9 counterexample: with no Docker secret and no environment
variable, the `ValueError` raised at `ImageProcessor` construction is
caught by the per-request handler and answered as an HTTP 500 to that
individual request — the absence is surfaced per request, not only at
startup. -/
theorem missing_key_counterexample :
    get_image_processor emptySecrets =
      Except.error (secretNotFoundMsg "openai_api_key" "OPENAI_API_KEY") ∧
    generate_pixelated_image okWorld emptySecrets okData =
      { status := 500, success := false,
        msg := "Error generating image: " ++
          secretNotFoundMsg "openai_api_key" "OPENAI_API_KEY" } :=
  ⟨rfl, rfl⟩

/-- Claim C9 as amended: the credential is resolved at `ImageProcessor`
construction time and its absence raises there; but because the route
constructs the processor inside each request, the absence surfaces as an
HTTP 500 on every individual valid request. -/
theorem missing_key_amended (sec : SecretEnv)
    (hfile : sec.secretFile "openai_api_key" = none)
    (henv : sec.envVar "OPENAI_API_KEY" = none) :
    get_image_processor sec =
      Except.error (secretNotFoundMsg "openai_api_key" "OPENAI_API_KEY") ∧
    ∀ (w : World) (data : ReqData) (ps nc : Int),
      pyInt (data.pixel_size.getD (JVal.jint 32)) = some ps →
      pyInt (data.num_colors.getD (JVal.jint 256)) = some nc →
      pyStrip (data.prompt.getD "") ≠ "" → ¬(ps < 1 ∨ 100 < ps) → ¬(nc < 2 ∨ 256 < nc) →
      data.size.getD "1024x1024" ∈ validSizes →
      generate_pixelated_image w sec data =
        { status := 500, success := false,
          msg := "Error generating image: " ++
            secretNotFoundMsg "openai_api_key" "OPENAI_API_KEY" } := by
  have hkey : get_image_processor sec =
      Except.error (secretNotFoundMsg "openai_api_key" "OPENAI_API_KEY") := by
    simp [get_image_processor, ImageProcessor.init, get_openai_api_key, get_secret,
      hfile, henv]
  refine ⟨hkey, ?_⟩
  intro w data ps nc hps hnc h1 h2 h3 h4
  unfold generate_pixelated_image
  rw [hps, hnc]
  simp [h1, h2, h3, h4, hkey]

/-- Claim C9 amended witness: the empty secret environment fails at
construction and a concrete valid request is answered 500. -/
theorem missing_key_amended_witness :
    get_image_processor emptySecrets =
      Except.error (secretNotFoundMsg "openai_api_key" "OPENAI_API_KEY") ∧
    generate_pixelated_image failApiWorld emptySecrets okData =
      { status := 500, success := false,
        msg := "Error generating image: " ++
          secretNotFoundMsg "openai_api_key" "OPENAI_API_KEY" } :=
  ⟨(missing_key_amended emptySecrets rfl rfl).1,
   (missing_key_amended emptySecrets rfl rfl).2 failApiWorld okData 32 16 rfl rfl
     (by decide) (by decide) (by decide) (by decide)⟩

/-- Claim C10: when `pixel_size` or `num_colors` does not convert with
`int()`, the raised `ValueError` reaches the outer exception handler
before any validation check, so the request is answered 500 (never 400),
whatever the other fields contain. -/
theorem nonint_param_returns_500 (w : World) (sec : SecretEnv) (data : ReqData)
    (h : pyInt (data.pixel_size.getD (JVal.jint 32)) = none ∨
      pyInt (data.num_colors.getD (JVal.jint 256)) = none) :
    (generate_pixelated_image w sec data).status = 500 ∧
      (generate_pixelated_image w sec data).success = false := by
  unfold generate_pixelated_image
  rcases h with h | h
  · rw [h]
    exact ⟨rfl, rfl⟩
  · cases hps : pyInt (data.pixel_size.getD (JVal.jint 32)) with
    | none =>
      exact ⟨rfl, rfl⟩
    | some v =>
      rw [h]
      exact ⟨rfl, rfl⟩

/-- Claim C10 witness: `pixel_size = "abc"` — with an otherwise valid
body — is answered 500, not 400. -/
theorem nonint_param_returns_500_witness :
    (generate_pixelated_image okWorld okSecrets
        { okData with pixel_size := some (JVal.jstr "abc") }).status = 500 ∧
      (generate_pixelated_image okWorld okSecrets
        { okData with pixel_size := some (JVal.jstr "abc") }).success = false :=
  nonint_param_returns_500 okWorld okSecrets
    { okData with pixel_size := some (JVal.jstr "abc") } (Or.inl (by decide))

end Pixify
